import Mathlib

/-!
Shallow embedding of `src/gif2flipbook.py` (the single function `gif2flipbook`)
and proofs about it.

Conventions:
* Python `float` arithmetic on the small integer inputs appearing here is modelled
  with `ℚ`; every constant that occurs (`8.5/2*300 = 1275`, `4.5*300 = 1350`,
  `2550*r/300 = 8.5*r`, `3300*r/300 = 11*r`) is exactly representable as an IEEE
  double, so the rational model agrees with the Python values.
* Fallible Python code is modelled with `Except PyError`; the `PyError` type also
  carries the error names used by the specification's taxonomy
  (`emptyInputError`, `invalidFrameError`) so that claims mentioning them are
  statable — the code itself only ever produces Python's built-in errors.
-/

/-- Errors. `zeroDivisionError`, `fileNotFoundError` and `systemExit` model the
Python built-ins the code can actually raise; `emptyInputError` and
`invalidFrameError` are the specification's taxonomy names, included so that
claims about them can be stated (the code never raises them). -/
inductive PyError where
  | zeroDivisionError
  | fileNotFoundError
  | systemExit
  | emptyInputError
  | invalidFrameError
  deriving DecidableEq, Repr

/-- Line 115: `width_check = 1 - (width - (8.5 / 2 * 300 - 2 * border)) / width`. -/
def width_check (width border : ℚ) : ℚ :=
  1 - (width - (8.5 / 2 * 300 - 2 * border)) / width

/-- Line 116: `height_check = 1 - (height - (4.5 * 300 - border)) / height`. -/
def height_check (height border : ℚ) : ℚ :=
  1 - (height - (4.5 * 300 - border)) / height

/-- Lines 117–122: the branch structure choosing `resize_factor`. -/
def resize_factor (width height border : ℚ) (no_size_increase : Bool) : ℚ :=
  if width_check width border < 1 ∨ height_check height border < 1 then
    min (width_check width border) (height_check height border)
  else if ¬no_size_increase ∧ 1 < width_check width border ∧
      1 < height_check height border then
    min (width_check width border) (height_check height border)
  else 1

/-- Lines 113–122 as a fallible computation: Python raises `ZeroDivisionError`
when the reference frame's `width` (line 115) or `height` (line 116) is zero,
because each check divides by the respective dimension. -/
def compute_scale (width height border : ℚ) (no_size_increase : Bool) :
    Except PyError ℚ :=
  if width = 0 then .error .zeroDivisionError
  else if height = 0 then .error .zeroDivisionError
  else .ok (resize_factor width height border no_size_increase)

theorem width_check_eq (width border : ℚ) (hw : width ≠ 0) :
    width_check width border = (1275 - 2 * border) / width := by
  unfold width_check
  field_simp
  ring

theorem height_check_eq (height border : ℚ) (hh : height ≠ 0) :
    height_check height border = (1350 - border) / height := by
  unfold height_check
  field_simp
  ring

example : width_check 2000 75 = 1125 / 2000 := by
  rw [width_check_eq] <;> norm_num

example : resize_factor 1000 1000 75 true = 1 := by
  unfold resize_factor width_check height_check
  norm_num

/-! ## Pagination and the run pipeline (lines 15–290) -/

/-- A decoded raster frame: only its dimensions matter to the layout engine. -/
structure Frame where
  width : ℕ
  height : ℕ
  deriving DecidableEq, Repr

/-- One saved single-page PDF part (lines 257–266): its trailing filename
number (`pdf_number`), the frame indices pasted onto its canvas, and the
`image_layout_dcts` key used for the paste position (line 144: always key 0). -/
structure Fragment where
  number : ℕ
  frames : List ℕ
  cell : ℕ
  deriving DecidableEq, Repr

/-- Lines 94–266: the loop runs once per frame index; iteration `i` increments
`pdf_number` to `i + 1` and saves one PDF part containing only frame `i`,
pasted at `image_layout = eval(image_layout_dcts[0])` (line 144). -/
def paginate (n_frames : ℕ) : List Fragment :=
  (List.range n_frames).map (fun i => { number := i + 1, frames := [i], cell := 0 })

/-- `os.path.join` for a relative second component. -/
def ospath_join (a b : String) : String := a ++ "/" ++ b

/-- Lines 280–284: the merged document is written to
`cwd/<date> flipbook/<date> flipbook.pdf`, built only from `cwd` and today's
date. -/
def final_pdf_path (cwd today : String) : String :=
  ospath_join (ospath_join cwd (today ++ " flipbook")) (today ++ " flipbook.pdf")

/-- Modelled from the spec (for comparison with `final_pdf_path`, claim C2):
"the output path the caller supplied (the path_pdf argument, or the input path
with extension changed to .pdf when path_pdf is None)". The extension change
replaces everything after the last dot with `pdf`. -/
def claimed_output_path (path_video : String) (path_pdf : Option String) : String :=
  path_pdf.getD (String.intercalate "." ((path_video.splitOn ".").dropLast) ++ ".pdf")

/-- Line 39: the fixed string assigned to `path_video` before any use. -/
def HARDCODED_PATH : String := "/Volumes/opt/gif2flipbook/GIFS/hug.gif"

/-- The keyword arguments of `gif2flipbook` (lines 15–23). -/
structure RunArgs where
  path_video : String
  path_pdf : Option String := none
  no_lines : Bool := false
  border : ℚ := 75
  no_size_increase : Bool := false
  pdf_resolution : ℕ := 200
  deriving DecidableEq, Repr

/-- Observable outcome of one `gif2flipbook` run: the path frames were read
from, the PDF parts produced, the path the merged document was written to
(`none` when the run aborts before the write succeeds), and the error it
aborts with, if any. -/
structure RunResult where
  sourceRead : String
  fragments : List Fragment
  written : Option String
  error : Option PyError
  deriving DecidableEq, Repr

/-- The whole of `gif2flipbook` (lines 15–290) at the level of the claims.
`fs` is the ambient filesystem, mapping a path to the frame list of the video
stored there (`none`: `Image.open`/frame extraction fails, and line 64 calls
`sys.exit`).

Control flow taken from the source:
* line 39 reassigns `path_video` to `HARDCODED_PATH` before any use;
* lines 94–266 run once per frame; iteration 0 computes the resize factor
  from frame 0's dimensions (lines 113–122), raising `ZeroDivisionError`
  before any PDF part is saved when a dimension is zero;
* line 257's `os.makedirs(pdf_path)` (which also creates the parent directory
  `cwd/<date> flipbook`) only runs inside the loop, so with zero frames no
  output directory exists and `pdf_merger.write` (line 280) raises
  `FileNotFoundError`, writing nothing;
* otherwise the merged document is written to `final_pdf_path cwd today`. -/
def run (fs : String → Option (List Frame)) (cwd today : String) (a : RunArgs) :
    RunResult :=
  let path_video := a.path_video
  let path_video := HARDCODED_PATH
  match fs path_video with
  | none =>
      { sourceRead := path_video, fragments := [], written := none,
        error := some .systemExit }
  | some frames =>
      match frames with
      | [] =>
          { sourceRead := path_video, fragments := [], written := none,
            error := some .fileNotFoundError }
      | f0 :: _ =>
          match compute_scale f0.width f0.height a.border a.no_size_increase with
          | .error e =>
              { sourceRead := path_video, fragments := [], written := none,
                error := some e }
          | .ok _ =>
              { sourceRead := path_video, fragments := paginate frames.length,
                written := some (final_pdf_path cwd today), error := none }

/-! ## The merger (lines 268–284) -/

/-- Line 263's fragment filename: `str(date.today()) + " flipbook-" + str(pdf_number) + ".pdf"`. -/
def frag_name (today : String) (k : ℕ) : String :=
  today ++ " flipbook-" ++ toString k ++ ".pdf"

/-- Python `str.split(sep)` for a one-character separator, on the character
list of the string: `"a-b".split("-") == ["a", "b"]`, `"".split("-") == [""]`. -/
def str_split (c : Char) : List Char → List (List Char)
  | [] => [[]]
  | x :: xs =>
      let r := str_split c xs
      if x = c then [] :: r
      else
        match r with
        | [] => [[x]]
        | y :: ys => (x :: y) :: ys

/-- Python `int(...)` on a decimal-digit string, as the digit fold. -/
def parse_digits (l : List Char) : ℕ :=
  l.foldl (fun n c => n * 10 + (c.toNat - 48)) 0

/-- Line 275's sort key `lambda x: int(x.split("-")[-1].split(".")[0])`:
the text after the last `-` and before the next `.`, parsed as a number. -/
def merge_key (s : String) : ℕ :=
  parse_digits ((str_split '.' ((str_split '-' s.toList).getLastD [])).headD [])

/-- The comparison `sorted` uses via `merge_key`. -/
def merge_le (a b : String) : Prop := merge_key a ≤ merge_key b

instance : DecidableRel merge_le := fun a b => Nat.decLe _ _

instance : IsTotal String merge_le := ⟨fun a b => Nat.le_total (merge_key a) (merge_key b)⟩

instance : IsTrans String merge_le := ⟨fun _ _ _ => Nat.le_trans⟩

/-- Lines 273–276: `sorted(glob.glob(...), key=lambda x: ...)`. Python's
`sorted` is a stable comparison sort on the key; `List.insertionSort` with the
key-induced relation is one such sort. -/
def merge_order (files : List String) : List String :=
  files.insertionSort merge_le

/-- The ten fragment names of a 10-page run, in numeric page order. -/
def frags10 : List String :=
  (List.range 10).map (fun i => frag_name "2026-10-12" (i + 1))

/-! ## Canvas rescaling (lines 244–250) -/

/-- Python 3's built-in `round` on an exactly-representable value:
round half to even. -/
def pyround (q : ℚ) : ℤ :=
  if q - ⌊q⌋ < 1 / 2 then ⌊q⌋
  else if 1 / 2 < q - ⌊q⌋ then ⌊q⌋ + 1
  else if Even ⌊q⌋ then ⌊q⌋ else ⌊q⌋ + 1

/-- Lines 246–247: the target size
`(round(2550 * pdf_resolution / 300), round(3300 * pdf_resolution / 300))`.
Both quotients are exact (dyadic) in IEEE doubles, so the rational model is
exact. -/
def output_size (pdf_resolution : ℕ) : ℤ × ℤ :=
  (pyround (2550 * pdf_resolution / 300), pyround (3300 * pdf_resolution / 300))

/-- Models Pillow's `Image.resize(size, resample=...)` at the level of size
and of whether a resampling pass runs: when the requested size equals the
image's current size (and no `box` is given), Pillow returns an unresampled
copy of the image; otherwise it resamples to the requested size. The `Bool`
records whether resampling ran. -/
def pil_resize (current target : ℤ × ℤ) : (ℤ × ℤ) × Bool :=
  if target = current then (current, false) else (target, true)

/-- Lines 244–250: the composed 2550×3300 canvas is passed to `resize` with
target `output_size pdf_resolution`. -/
def canvas_rescale (pdf_resolution : ℕ) : (ℤ × ℤ) × Bool :=
  pil_resize (2550, 3300) (output_size pdf_resolution)

example : merge_key (frag_name "2026-10-12" 7) = 7 := by decide
example : merge_key "/home/u/2026-10-12 flipbook-10.pdf" = 10 := by decide
example : canvas_rescale 300 = ((2550, 3300), false) := by
  unfold canvas_rescale pil_resize output_size pyround
  norm_num

/-! ## The spec's printable-area formulas (for comparison with the code's) -/

/-- Modelled from the spec (claim C4's formula, for comparison with
`width_check`): width ratio with printable width
`page_width / columns − 2·border − reserved`, on the 4-up US-letter page
(2550 wide, 2 columns). -/
def spec_width_ratio_4up (width border reserved : ℚ) : ℚ :=
  1 - (width - (2550 / 2 - 2 * border - reserved)) / width

/-- Modelled from the spec (claim C4's formula, for comparison with
`height_check`): height ratio with printable height
`page_height / rows − 2·border − reserved`, on the 4-up US-letter page
(3300 tall, 2 rows), with the same reserved margin as the width. -/
def spec_height_ratio_4up (height border reserved : ℚ) : ℚ :=
  1 - (height - (3300 / 2 - 2 * border - reserved)) / height

/-! ## Claim theorems: the scale calculator (C4, C5, C6) -/

/-- C4 counterexample: at `width = height = 1000`, `border = 75`, no single
reserved-margin constant makes the spec's cell formulas
(`page_dim / 2 − 2·border − reserved` on both axes, same reserved margin)
reproduce the code's `width_check` and `height_check`: matching the width
forces `reserved = 0`, matching the height forces `reserved = 225`. -/
theorem C4_no_common_reserved_margin :
    ¬ ∃ reserved : ℚ,
      spec_width_ratio_4up 1000 75 reserved = width_check 1000 75 ∧
      spec_height_ratio_4up 1000 75 reserved = height_check 1000 75 := by
  rintro ⟨m, h1, h2⟩
  rw [width_check_eq 1000 75 (by norm_num)] at h1
  rw [height_check_eq 1000 75 (by norm_num)] at h2
  unfold spec_width_ratio_4up at h1
  unfold spec_height_ratio_4up at h2
  have hm1 : m = 0 := by field_simp at h1; linarith
  have hm2 : m = 225 := by field_simp at h2; linarith
  rw [hm1] at hm2
  norm_num at hm2

/-- C4 (amended): for nonzero reference dimensions, the code's ratios are
`width_check = (2550/2 − 2·border) / width` — printable width is half the
page width minus twice the border, with no reserved margin — and
`height_check = (3300/2 − 300 − border) / height` — printable height is half
the page height minus a fixed 300-pixel band and a single border. -/
theorem C4_actual_cell_arithmetic (w h b : ℚ) (hw : w ≠ 0) (hh : h ≠ 0) :
    width_check w b = (2550 / 2 - 2 * b) / w ∧
    height_check h b = (3300 / 2 - 300 - b) / h := by
  constructor
  · rw [width_check_eq w b hw]; norm_num
  · rw [height_check_eq h b hh]; norm_num

theorem C4_actual_cell_arithmetic_witness :
    width_check 1000 75 = (2550 / 2 - 2 * 75) / 1000 ∧
    height_check 1000 75 = (3300 / 2 - 300 - 75) / 1000 :=
  C4_actual_cell_arithmetic 1000 1000 75 (by norm_num) (by norm_num)

/-- C5: for positive reference dimensions and a border leaving a positive
printable cell (`2·border < 1275`), the resize factor is strictly positive
and the floored scaled dimensions exceed the printable cell area
(`1275 − 2·border` wide, `1350 − border` tall) by at most one pixel on each
axis (in fact they never exceed it at all). -/
theorem C5_scale_positive_and_fits (w h b : ℚ) (nsi : Bool)
    (hw : 0 < w) (hh : 0 < h) (hb : 0 ≤ b) (hbA : 2 * b < 1275) :
    0 < resize_factor w h b nsi ∧
    (⌊resize_factor w h b nsi * w⌋ : ℚ) ≤ (1275 - 2 * b) + 1 ∧
    (⌊resize_factor w h b nsi * h⌋ : ℚ) ≤ (1350 - b) + 1 := by
  have hw' : w ≠ 0 := ne_of_gt hw
  have hh' : h ≠ 0 := ne_of_gt hh
  have hA : (0 : ℚ) < 1275 - 2 * b := by linarith
  have hB : (0 : ℚ) < 1350 - b := by linarith
  have hwc : width_check w b = (1275 - 2 * b) / w := width_check_eq w b hw'
  have hhc : height_check h b = (1350 - b) / h := height_check_eq h b hh'
  have key : 0 < resize_factor w h b nsi ∧
      resize_factor w h b nsi * w ≤ 1275 - 2 * b ∧
      resize_factor w h b nsi * h ≤ 1350 - b := by
    have hminpos : 0 < min (width_check w b) (height_check h b) := by
      rw [hwc, hhc]
      exact lt_min (div_pos hA hw) (div_pos hB hh)
    have hminw : min (width_check w b) (height_check h b) * w ≤ 1275 - 2 * b := by
      calc min (width_check w b) (height_check h b) * w
          ≤ width_check w b * w :=
            mul_le_mul_of_nonneg_right (min_le_left _ _) (le_of_lt hw)
        _ = 1275 - 2 * b := by rw [hwc]; field_simp
    have hminh : min (width_check w b) (height_check h b) * h ≤ 1350 - b := by
      calc min (width_check w b) (height_check h b) * h
          ≤ height_check h b * h :=
            mul_le_mul_of_nonneg_right (min_le_right _ _) (le_of_lt hh)
        _ = 1350 - b := by rw [hhc]; field_simp
    unfold resize_factor
    split_ifs with h1 h2
    · exact ⟨hminpos, hminw, hminh⟩
    · exact ⟨hminpos, hminw, hminh⟩
    · push_neg at h1
      have hwfit : w ≤ 1275 - 2 * b := by
        have := h1.1
        rw [hwc, le_div_iff₀ hw] at this
        linarith
      have hhfit : h ≤ 1350 - b := by
        have := h1.2
        rw [hhc, le_div_iff₀ hh] at this
        linarith
      refine ⟨one_pos, ?_, ?_⟩ <;> simp only [one_mul]
      · exact hwfit
      · exact hhfit
  refine ⟨key.1, ?_, ?_⟩
  · have hfl := Int.floor_le (resize_factor w h b nsi * w)
    linarith [key.2.1]
  · have hfl := Int.floor_le (resize_factor w h b nsi * h)
    linarith [key.2.2]

theorem C5_scale_positive_and_fits_witness :
    0 < resize_factor 2000 3000 75 false ∧
    (⌊resize_factor 2000 3000 75 false * 2000⌋ : ℚ) ≤ (1275 - 2 * 75) + 1 ∧
    (⌊resize_factor 2000 3000 75 false * 3000⌋ : ℚ) ≤ (1350 - 75) + 1 :=
  C5_scale_positive_and_fits 2000 3000 75 false (by norm_num) (by norm_num)
    (by norm_num) (by norm_num)

/-- C6: with `no_size_increase` set, the factor is exactly 1 (hence ≤ 1)
whenever both checks are at least 1 (the unscaled frame fits its cell); and
whenever either check is below 1, the factor is the minimum of the two
checks, whatever `no_size_increase` is. -/
theorem C6_no_size_increase_clamp (w h b : ℚ) (nsi : Bool) :
    (nsi = true → 1 ≤ width_check w b → 1 ≤ height_check h b →
      resize_factor w h b nsi = 1) ∧
    (width_check w b < 1 ∨ height_check h b < 1 →
      resize_factor w h b nsi = min (width_check w b) (height_check h b)) := by
  constructor
  · intro hnsi h1 h2
    have hcond : ¬(width_check w b < 1 ∨ height_check h b < 1) := by
      push_neg
      exact ⟨h1, h2⟩
    have hcond2 : ¬(¬nsi ∧ 1 < width_check w b ∧ 1 < height_check h b) := by
      rw [hnsi]
      simp
    unfold resize_factor
    rw [if_neg hcond, if_neg hcond2]
  · intro hlt
    unfold resize_factor
    rw [if_pos hlt]

theorem C6_no_size_increase_clamp_witness :
    resize_factor 1000 1000 75 true = 1 :=
  (C6_no_size_increase_clamp 1000 1000 75 true).1 rfl
    (by rw [width_check_eq 1000 75 (by norm_num)]; norm_num)
    (by rw [height_check_eq 1000 75 (by norm_num)]; norm_num)

/-! ## Claim theorems: error behaviour of the pipeline (C8, C7) -/

/-- Example filesystems for concrete runs. -/
def fs_zero_width : String → Option (List Frame) := fun _ => some [⟨0, 100⟩]

def fs_no_frames : String → Option (List Frame) := fun _ => some []

def fs_one_frame : String → Option (List Frame) := fun _ => some [⟨100, 100⟩]

def args_basic : RunArgs := { path_video := "/in/clip.gif" }

/-- C8 counterexample: a reference frame of width 0 makes the run fail with
Python's `ZeroDivisionError` (line 115 divides by the width) — not with the
spec's `InvalidFrameError`. -/
theorem C8_zero_width_is_zero_division :
    (run fs_zero_width "/home/u" "2026-10-12" args_basic).error =
      some .zeroDivisionError ∧
    (run fs_zero_width "/home/u" "2026-10-12" args_basic).error ≠
      some .invalidFrameError := by
  constructor
  · rfl
  · intro hcontra
    have : (PyError.zeroDivisionError : PyError) = .invalidFrameError := by
      have h1 : (run fs_zero_width "/home/u" "2026-10-12" args_basic).error =
          some .zeroDivisionError := rfl
      rw [h1] at hcontra
      exact Option.some.inj hcontra
    exact PyError.noConfusion this

/-- C8 (amended): a reference frame with width 0 or height 0 aborts the run
with an untyped `ZeroDivisionError` before any page is produced (no
fragments, nothing written). -/
theorem C8_zero_dimension_aborts (fs : String → Option (List Frame))
    (cwd today : String) (a : RunArgs) (f0 : Frame) (rest : List Frame)
    (hfs : fs HARDCODED_PATH = some (f0 :: rest))
    (hzero : f0.width = 0 ∨ f0.height = 0) :
    run fs cwd today a =
      { sourceRead := HARDCODED_PATH, fragments := [], written := none,
        error := some .zeroDivisionError } := by
  have hscale : compute_scale f0.width f0.height a.border a.no_size_increase =
      .error .zeroDivisionError := by
    rcases hzero with hz | hz
    · unfold compute_scale
      rw [if_pos (by exact_mod_cast congrArg (Nat.cast : ℕ → ℚ) hz)]
    · unfold compute_scale
      by_cases hwz : (f0.width : ℚ) = 0
      · rw [if_pos hwz]
      · rw [if_neg hwz, if_pos (by exact_mod_cast congrArg (Nat.cast : ℕ → ℚ) hz)]
  simp only [run, hfs, hscale]

theorem C8_zero_dimension_aborts_witness :
    run fs_zero_width "/home/u" "2026-10-12" args_basic =
      { sourceRead := HARDCODED_PATH, fragments := [], written := none,
        error := some .zeroDivisionError } :=
  C8_zero_dimension_aborts fs_zero_width "/home/u" "2026-10-12" args_basic
    ⟨0, 100⟩ [] rfl (Or.inl rfl)

/-- C7 counterexample: with zero frames the run does not fail with the spec's
`EmptyInputError`; the per-frame loop never creates the output directory, so
the merger's write fails with Python's `FileNotFoundError`. -/
theorem C7_zero_frames_not_empty_input_error :
    (run fs_no_frames "/home/u" "2026-10-12" args_basic).error ≠
      some .emptyInputError ∧
    (run fs_no_frames "/home/u" "2026-10-12" args_basic).error =
      some .fileNotFoundError := by
  constructor
  · intro hcontra
    have h1 : (run fs_no_frames "/home/u" "2026-10-12" args_basic).error =
        some .fileNotFoundError := rfl
    rw [h1] at hcontra
    exact PyError.noConfusion (Option.some.inj hcontra)
  · rfl

/-- C7 (amended): with zero frames the run produces no pages and writes
nothing to the final output path, but the failure is an untyped
`FileNotFoundError` raised when the merged write targets the never-created
output directory — not a fail-fast `EmptyInputError`. -/
theorem C7_zero_frames_outcome (fs : String → Option (List Frame))
    (cwd today : String) (a : RunArgs) (hfs : fs HARDCODED_PATH = some []) :
    run fs cwd today a =
      { sourceRead := HARDCODED_PATH, fragments := [], written := none,
        error := some .fileNotFoundError } := by
  simp only [run, hfs]

theorem C7_zero_frames_outcome_witness :
    run fs_no_frames "/home/u" "2026-10-12" args_basic =
      { sourceRead := HARDCODED_PATH, fragments := [], written := none,
        error := some .fileNotFoundError } :=
  C7_zero_frames_outcome fs_no_frames "/home/u" "2026-10-12" args_basic rfl

/-! ## Claim theorems: output path and input path (C2, C3) -/

/-- Every run either writes nothing or writes to `final_pdf_path cwd today`. -/
theorem run_written_cases (fs : String → Option (List Frame))
    (cwd today : String) (a : RunArgs) :
    (run fs cwd today a).written = none ∨
    (run fs cwd today a).written = some (final_pdf_path cwd today) := by
  cases hf : fs HARDCODED_PATH with
  | none => left; simp only [run, hf]
  | some frames =>
      cases frames with
      | nil => left; simp only [run, hf]
      | cons f0 rest =>
          cases hcs : compute_scale f0.width f0.height a.border a.no_size_increase with
          | error e => left; simp only [run, hf, hcs]
          | ok s => right; simp only [run, hf, hcs]

/-- Whatever the run does, it reads its frames from the hardcoded path. -/
theorem run_sourceRead (fs : String → Option (List Frame))
    (cwd today : String) (a : RunArgs) :
    (run fs cwd today a).sourceRead = HARDCODED_PATH := by
  cases hf : fs HARDCODED_PATH with
  | none => simp only [run, hf]
  | some frames =>
      cases frames with
      | nil => simp only [run, hf]
      | cons f0 rest =>
          cases hcs : compute_scale f0.width f0.height a.border a.no_size_increase with
          | error e => simp only [run, hf, hcs]
          | ok s => simp only [run, hf, hcs]

def args_with_pdf : RunArgs :=
  { path_video := "/in/clip.gif", path_pdf := some "/a/b.pdf" }

/-- C2 counterexample: with `path_pdf = "/a/b.pdf"` supplied, the merged
document is written to `cwd/<date> flipbook/<date> flipbook.pdf`
(lines 280–284), not to the caller's path. -/
theorem C2_written_not_caller_path :
    (run fs_one_frame "/home/u" "2026-10-12" args_with_pdf).written =
      some (final_pdf_path "/home/u" "2026-10-12") ∧
    (run fs_one_frame "/home/u" "2026-10-12" args_with_pdf).written ≠
      some (claimed_output_path args_with_pdf.path_video args_with_pdf.path_pdf) := by
  have h1 : (run fs_one_frame "/home/u" "2026-10-12" args_with_pdf).written =
      some (final_pdf_path "/home/u" "2026-10-12") := rfl
  refine ⟨h1, ?_⟩
  rw [h1]
  intro hc
  exact absurd (Option.some.inj hc) (by decide)

/-- C2 (amended): for every run and every caller-supplied `path_pdf`, the
final document location is `cwd/<date> flipbook/<date> flipbook.pdf` (or
nothing is written at all); the `path_pdf` argument is never used. -/
theorem C2_output_path_ignores_path_pdf (fs : String → Option (List Frame))
    (cwd today : String) (a : RunArgs) (p : Option String) :
    (run fs cwd today { a with path_pdf := p }).written = none ∨
    (run fs cwd today { a with path_pdf := p }).written =
      some (final_pdf_path cwd today) :=
  run_written_cases fs cwd today { a with path_pdf := p }

/-- C3: two invocations that differ only in `path_video` behave identically —
line 39 reassigns `path_video` to the fixed constant before any use — and the
frames are read from that hardcoded path. -/
theorem C3_path_video_has_no_influence (fs : String → Option (List Frame))
    (cwd today : String) (a : RunArgs) (p₁ p₂ : String) :
    run fs cwd today { a with path_video := p₁ } =
      run fs cwd today { a with path_video := p₂ } ∧
    (run fs cwd today { a with path_video := p₁ }).sourceRead = HARDCODED_PATH :=
  ⟨rfl, run_sourceRead fs cwd today { a with path_video := p₁ }⟩

/-! ## Claim theorems: pagination (C1) -/

/-- C1 counterexample: at `frame_count = 10` (4-up canvas), the loop produces
10 single-frame pages — not the claimed `ceil(10 / 4) = 3` pages of sizes
`[4, 4, 2]`. Every page holds exactly one frame, at layout cell 0. -/
theorem C1_ten_frames_give_ten_pages :
    (paginate 10).length = 10 ∧
    (paginate 10).length ≠ 3 ∧
    (paginate 10).map Fragment.frames =
      [[0], [1], [2], [3], [4], [5], [6], [7], [8], [9]] := by
  refine ⟨?_, ?_, ?_⟩ <;> decide

/-- C1 (amended): for every `frame_count`, the loop produces exactly
`frame_count` pages; frame `i` lands alone on page `i` (0-based; its fragment
is numbered `i + 1`) at the fixed layout cell 0, for every `i < frame_count`. -/
theorem C1_one_page_per_frame (n i : ℕ) (hi : i < n) :
    (paginate n).length = n ∧
    (paginate n)[i]? = some { number := i + 1, frames := [i], cell := 0 } := by
  constructor
  · simp [paginate]
  · simp [paginate, List.getElem?_map, List.getElem?_range hi]

theorem C1_one_page_per_frame_witness :
    (paginate 10).length = 10 ∧
    (paginate 10)[3]? = some { number := 4, frames := [3], cell := 0 } :=
  C1_one_page_per_frame 10 3 (by decide)

/-! ## Claim theorems: the merger (C9) -/

/-- Two lists that are permutations of each other, that map equally under
`f`, and whose common image has no duplicates, are equal. -/
theorem eq_of_perm_of_map_eq {α β : Type} (f : α → β) :
    ∀ t s : List α, s.Perm t → s.map f = t.map f → (t.map f).Nodup → s = t := by
  intro t
  induction t with
  | nil =>
      intro s hp _ _
      exact hp.eq_nil
  | cons b t' ih =>
      intro s hp hm hn
      cases s with
      | nil => exact absurd hp.symm.eq_nil (List.cons_ne_nil b t')
      | cons a s' =>
          simp only [List.map_cons] at hm hn
          have hfab : f a = f b := by injection hm
          have hab : a = b := by
            rcases List.mem_cons.mp (hp.subset (List.mem_cons_self a s')) with h | h
            · exact h
            · exfalso
              have hmem : f a ∈ t'.map f := List.mem_map_of_mem f h
              rw [hfab] at hmem
              exact (List.nodup_cons.mp hn).1 hmem
          subst hab
          have hm' : s'.map f = t'.map f := by injection hm
          rw [ih s' hp.cons_inv hm' (List.nodup_cons.mp hn).2]

/-- A list sorted under the merge comparison has a nondecreasing key image. -/
theorem sorted_merge_le_map {l : List String} (h : List.Sorted merge_le l) :
    List.Sorted (· ≤ ·) (l.map merge_key) :=
  List.Pairwise.map merge_key (fun _ _ hab => hab) h

/-- C9: whatever order the filesystem presents the ten fragment files in, the
merger sorts them by the numeric token before the extension, so the merge
order is 1, 2, ..., 10 — not the lexicographic order placing 10 before 2. -/
theorem C9_merge_orders_numerically (l : List String) (hl : l.Perm frags10) :
    merge_order l = frags10 := by
  have hperm : (merge_order l).Perm frags10 :=
    (List.perm_insertionSort merge_le l).trans hl
  have hsorted : List.Sorted merge_le (merge_order l) :=
    List.sorted_insertionSort merge_le l
  have hkeys : frags10.map merge_key = [1, 2, 3, 4, 5, 6, 7, 8, 9, 10] := by
    decide
  have hsorted10 : List.Sorted (· ≤ ·) (frags10.map merge_key) := by
    rw [hkeys]
    decide
  have hmap : (merge_order l).map merge_key = frags10.map merge_key :=
    List.eq_of_perm_of_sorted (hperm.map merge_key)
      (sorted_merge_le_map hsorted) hsorted10
  have hnodup : (frags10.map merge_key).Nodup := by
    rw [hkeys]
    decide
  exact eq_of_perm_of_map_eq merge_key frags10 (merge_order l) hperm hmap hnodup

/-- The ten fragment names in the lexicographic order a naive directory
listing would give (10 sorts before 2). -/
def frags10_lex : List String :=
  [frag_name "2026-10-12" 1, frag_name "2026-10-12" 10, frag_name "2026-10-12" 2,
   frag_name "2026-10-12" 3, frag_name "2026-10-12" 4, frag_name "2026-10-12" 5,
   frag_name "2026-10-12" 6, frag_name "2026-10-12" 7, frag_name "2026-10-12" 8,
   frag_name "2026-10-12" 9]

theorem C9_merge_orders_numerically_witness : merge_order frags10_lex = frags10 :=
  C9_merge_orders_numerically frags10_lex (by decide)

/-! ## Claim theorems: canvas rescaling (C10) -/

theorem pyround_natCast (n : ℕ) : pyround (n : ℚ) = n := by
  unfold pyround
  rw [Int.floor_natCast]
  norm_num

theorem output_size_300 : output_size 300 = (2550, 3300) := by
  unfold output_size pyround
  norm_num

/-- C10: the composed 2550×3300 canvas is resampled exactly when the
requested resolution differs from the reference 300 units per inch; at 300
the library call is the identity (same target size, no resampling pass) and
the canvas is unchanged. -/
theorem C10_resample_only_when_resolutions_differ (res : ℕ) :
    ((canvas_rescale res).2 = false ↔ res = 300) ∧
    (res = 300 → (canvas_rescale res).1 = (2550, 3300)) := by
  have hh : pyround (3300 * (res : ℚ) / 300) = ((11 * res : ℕ) : ℤ) := by
    have hcast : (3300 * (res : ℚ) / 300) = ((11 * res : ℕ) : ℚ) := by
      push_cast
      ring
    rw [hcast, pyround_natCast]
  constructor
  · constructor
    · intro hfalse
      by_cases hout : output_size res = ((2550 : ℤ), (3300 : ℤ))
      · have h2 := congrArg Prod.snd hout
        simp only [output_size] at h2
        rw [hh] at h2
        have : 11 * res = 3300 := by exact_mod_cast h2
        omega
      · exfalso
        unfold canvas_rescale pil_resize at hfalse
        rw [if_neg hout] at hfalse
        simp at hfalse
    · intro h300
      subst h300
      unfold canvas_rescale pil_resize
      rw [if_pos output_size_300]
  · intro h300
    subst h300
    unfold canvas_rescale pil_resize
    rw [if_pos output_size_300]

theorem C10_resample_only_when_resolutions_differ_witness :
    (canvas_rescale 300).1 = (2550, 3300) :=
  (C10_resample_only_when_resolutions_differ 300).2 rfl
